import Mathlib

/-!
Verification of `docs/user-guide/examples/workflow_demo.py`.

The script defines a single procedure `demo_browser_workflow` that prints a
fixed demo transcript, accumulates a list of hard-coded mock result records,
prints a summary computed from those records, and finally prints a literal
JSON workflow definition via `json.dumps(..., indent=2)`.

The embedding models the process as a pure function from an external world
(environment variables, network, file system -- none of which the script
consults) and the `time.sleep` duration to an event trace (console output
and sleep events) together with the final `results` list.  Dictionary
accesses of the form `step['name']` are fallible in Python (`KeyError`), so
the run lives in the `Option` monad: `none` models an uncaught exception.
-/

/-- Python values occurring in the script: strings, booleans, ints, the one
float literal `2.5` (modelled exactly as a rational), JSON arrays and
dicts (association lists, preserving insertion order as Python does). -/
inductive Json where
  | str : String → Json
  | boolean : Bool → Json
  | intVal : Int → Json
  | floatVal : Rat → Json
  | arr : List Json → Json
  | obj : List (String × Json) → Json

/-- Decimal rendering of the numeric literals of the script (Python
`str`/`json` rendering).  Integral rationals render as `n.0`; otherwise one
fractional digit is produced, which is exact for the single float literal
`2.5` of the source. -/
def ratDecimalStr (q : Rat) : String :=
  if q.den = 1 then toString q.num ++ ".0"
  else toString (q.num / (q.den : Int)) ++ "." ++ toString ((q.num % (q.den : Int)) * 10 / (q.den : Int))

/-- Python `str()` / f-string interpolation of the scalar values the script
formats.  The source only ever interpolates strings, booleans and numbers
(fields of `mock_result`), never containers, so containers render empty. -/
def pyStr : Json → String
  | .str s => s
  | .boolean b => if b then "True" else "False"
  | .intVal n => toString n
  | .floatVal q => ratDecimalStr q
  | .arr _ => ""
  | .obj _ => ""

/-- Externally observable events of the process: a line written to standard
output by `print`, a `time.sleep`, or external effects the script could in
principle perform but never does (network fetch, file write, environment
read).  The latter three constructors exist so that the frame claims are
meaningful. -/
inductive Event where
  | out : String → Event
  | sleep : Rat → Event
  | netFetch : String → Event
  | fileWrite : String → String → Event
  | envRead : String → Event
deriving DecidableEq

/-- The ambient external state of the process: environment variables, the
network, the file system.  The script never consults any of it. -/
structure World where
  env : String → Option String
  net : String → Option String
  fs : String → Option String

/-- A world with nothing in it, used to instantiate universally quantified
statements. -/
def emptyWorld : World := ⟨fun _ => none, fun _ => none, fun _ => none⟩

/-- A result record appended to `results`: a Python dict from keys to
values, insertion-ordered. -/
abbrev MockRec := List (String × Json)

/-- The console lines of a trace, in order (sleeps and other non-output
events contribute nothing). -/
def printedLines (evs : List Event) : List String :=
  evs.filterMap fun e =>
    match e with
    | .out s => some s
    | _ => none

/-- The `workflow_steps` literal of the source: three dicts, the third one
lacking the `url` key. -/
def workflow_steps : List (List (String × String)) :=
  [ [("name", "Browse Company Website"),
     ("url", "https://example.com"),
     ("action", "Extract company information and metadata")],
    [("name", "Browse News Article"),
     ("url", "https://httpbin.org/html"),
     ("action", "Extract article content and entities")],
    [("name", "KG Integration"),
     ("action", "Store extracted information in knowledge graph")] ]

/-- The `mock_result` dict literal built for a URL step: every value other
than the URL is a hard-coded constant. -/
def mock_result (url : String) : MockRec :=
  [("url", .str url),
   ("success", .boolean true),
   ("extraction_time", .floatVal (mkRat 5 2)),
   ("content_length", .intVal 15432),
   ("entities_found", .intVal 8),
   ("kg_triples_added", .intVal 12)]

/-- The `kg_operations` list literal of the KG-integration branch. -/
def kg_operations : List String :=
  ["INSERT company data triples",
   "INSERT entity relationships",
   "Run inference on new data",
   "Update entity embeddings"]

/-- One iteration of the `for step in workflow_steps` loop.  Returns the
events emitted by the iteration and the updated `results` list; `none`
models a `KeyError` on a dict access. -/
def processStep (sleepDur : Rat) (results : List MockRec)
    (step : List (String × String)) : Option (List Event × List MockRec) := do
  let name ← step.lookup "name"
  let header := Event.out ("\n🎯 Step: " ++ name)
  match step.lookup "url" with
  | some url => do
      let action ← step.lookup "action"
      let mr := mock_result url
      let succ ← mr.lookup "success"
      let etime ← mr.lookup "extraction_time"
      let clen ← mr.lookup "content_length"
      let ents ← mr.lookup "entities_found"
      let triples ← mr.lookup "kg_triples_added"
      pure ([header,
             .out ("   🌐 URL: " ++ url),
             .out ("   🎬 Action: " ++ action),
             .out ("   ✅ Success: " ++ pyStr succ),
             .out ("   ⏱️  Time: " ++ pyStr etime ++ "s"),
             .out ("   📄 Content: " ++ pyStr clen ++ " chars"),
             .out ("   🏷️  Entities: " ++ pyStr ents),
             .out ("   🧠 KG Triples: " ++ pyStr triples)],
            results ++ [mr])
  | none =>
      if name = "KG Integration" then do
        let action ← step.lookup "action"
        pure ([header, .out ("   🎬 Action: " ++ action)] ++
              (kg_operations.map fun op =>
                [Event.out ("   🔄 " ++ op ++ "..."), Event.sleep sleepDur]).flatten ++
              [.out "   ✅ KG integration completed"],
              results)
      else
        pure ([header], results)

/-- The whole `for` loop, threading the accumulated `results` list. -/
def runSteps (sleepDur : Rat) (steps : List (List (String × String)))
    (results : List MockRec) : Option (List Event × List MockRec) :=
  match steps with
  | [] => some ([], results)
  | step :: rest => do
      let (evs, results') ← processStep sleepDur results step
      let (evs', results'') ← runSteps sleepDur rest results'
      pure (evs ++ evs', results'')

/-- `sum(r.get(k, 0) for r in rs)`: a missing key contributes the default
`0`; a present value that is not an int would make the Python sum raise a
`TypeError`, modelled as `none`. -/
def sumField (k : String) (rs : List MockRec) : Option Int :=
  rs.foldl (fun acc r =>
    match acc, r.lookup k with
    | none, _ => none
    | some a, none => some a
    | some a, some (.intVal n) => some (a + n)
    | some _, some _ => none) (some 0)

/-- The `Workflow Summary` block: every figure is computed from
`workflow_steps` and the accumulated `results`, exactly as the source
computes it (`len`, a filter on `'url' in r`, and two `sum(...)` calls). -/
def summaryEvents (results : List MockRec) : Option (List Event) := do
  let ents ← sumField "entities_found" results
  let triples ← sumField "kg_triples_added" results
  pure [.out "\n📊 Workflow Summary:",
        .out ("   Total steps: " ++ toString workflow_steps.length),
        .out ("   URLs processed: " ++
          toString (results.filter (fun r => (r.lookup "url").isSome)).length),
        .out ("   Total entities extracted: " ++ toString ents),
        .out ("   Total KG triples added: " ++ toString triples)]

/-- The `workflow_def` dict literal printed at the end of the script. -/
def workflow_def : Json :=
  .obj [("name", .str "Content Extraction Pipeline"),
        ("steps", .arr
          [.obj [("type", .str "browse"), ("url", .str "https://example.com"),
                 ("extract", .str "metadata")],
           .obj [("type", .str "browse"), ("url", .str "https://httpbin.org/html"),
                 ("extract", .str "content")],
           .obj [("type", .str "kg_update"), ("source", .str "extracted_data")],
           .obj [("type", .str "inference"), ("model", .str "kg_embeddings")]]),
        ("output", .obj
          [("kg_triples", .str "generated"),
           ("entities", .str "extracted"),
           ("embeddings", .str "updated")])]

/-- JSON string escaping as `json.dumps` performs it on the (pure-ASCII,
control-free) strings of the script. -/
def jsonEscape (s : String) : String :=
  String.mk ((s.data.map fun c =>
    if c = '"' then ['\\', '"']
    else if c = '\\' then ['\\', '\\']
    else [c]).flatten)

/-- `s` starts with the prefix string `p` (Python `str.startswith`). -/
def lineStarts (s p : String) : Bool := p.data.isPrefixOf s.data

/-- `n` spaces. -/
def indentStr (n : Nat) : String := String.mk (List.replicate n ' ')

/-- A pending serialisation task: a value, the elements of an array, or the
members of an object. -/
inductive DTask where
  | val : Json → DTask
  | items : List Json → DTask
  | pairs : List (String × Json) → DTask

/-- `json.dumps(v, indent=2)` worker at nesting level `lvl`.  The fuel
argument bounds the recursion, exactly as CPython's interpreter recursion
limit bounds `json.dumps` on nested containers; it decreases structurally so
that the definition computes by reduction. -/
def dumpsF : Nat → Nat → DTask → String
  | 0, _, _ => ""
  | _ + 1, _, .val (.str s) => "\"" ++ jsonEscape s ++ "\""
  | _ + 1, _, .val (.boolean b) => if b then "true" else "false"
  | _ + 1, _, .val (.intVal n) => toString n
  | _ + 1, _, .val (.floatVal q) => ratDecimalStr q
  | _ + 1, _, .val (.arr []) => "[]"
  | fuel + 1, lvl, .val (.arr (x :: xs)) =>
      "[\n" ++ dumpsF fuel (lvl + 1) (.items (x :: xs)) ++ "\n" ++
        indentStr (2 * lvl) ++ "]"
  | _ + 1, _, .val (.obj []) => "\x7b\x7d"
  | fuel + 1, lvl, .val (.obj (kv :: kvs)) =>
      "\x7b\n" ++ dumpsF fuel (lvl + 1) (.pairs (kv :: kvs)) ++ "\n" ++
        indentStr (2 * lvl) ++ "\x7d"
  | _ + 1, _, .items [] => ""
  | fuel + 1, lvl, .items [x] => indentStr (2 * lvl) ++ dumpsF fuel lvl (.val x)
  | fuel + 1, lvl, .items (x :: y :: xs) =>
      indentStr (2 * lvl) ++ dumpsF fuel lvl (.val x) ++ ",\n" ++
        dumpsF fuel lvl (.items (y :: xs))
  | _ + 1, _, .pairs [] => ""
  | fuel + 1, lvl, .pairs [(k, v)] =>
      indentStr (2 * lvl) ++ "\"" ++ jsonEscape k ++ "\": " ++ dumpsF fuel lvl (.val v)
  | fuel + 1, lvl, .pairs ((k, v) :: kv :: kvs) =>
      indentStr (2 * lvl) ++ "\"" ++ jsonEscape k ++ "\": " ++ dumpsF fuel lvl (.val v) ++
        ",\n" ++ dumpsF fuel lvl (.pairs (kv :: kvs))

/-- `json.dumps(v, indent=2)`.  The fuel `1000` mirrors CPython's default
recursion limit; the document of the script has nesting depth 4. -/
def json_dumps (v : Json) : String := dumpsF 1000 0 (.val v)

/-- Skip JSON insignificant whitespace. -/
def skipWs : List Char → List Char
  | c :: cs => if c = ' ' ∨ c = '\n' ∨ c = '\t' ∨ c = '\r' then skipWs cs else c :: cs
  | [] => []

/-- Parse the characters of a JSON string after the opening quote, handling
the escapes `json.dumps` can emit; returns the decoded characters and the
remaining input. -/
def parseStrChars : Nat → List Char → Option (List Char × List Char)
  | 0, _ => none
  | _ + 1, '"' :: cs => some ([], cs)
  | fuel + 1, '\\' :: c :: cs => do
      let e ← match c with
        | '"' => some '"'
        | '\\' => some '\\'
        | '/' => some '/'
        | 'n' => some '\n'
        | 't' => some '\t'
        | 'r' => some '\r'
        | _ => none
      let (rest, cs') ← parseStrChars fuel cs
      pure (e :: rest, cs')
  | fuel + 1, c :: cs => do
      let (rest, cs') ← parseStrChars fuel cs
      pure (c :: rest, cs')
  | _ + 1, [] => none

/-- Parse a run of decimal digits. -/
def parseDigits : List Char → Nat → (Nat × List Char)
  | c :: cs, acc =>
      if c.isDigit then parseDigits cs (acc * 10 + (c.toNat - 48)) else (acc, c :: cs)
  | [], acc => (acc, [])

/-- What the recursive-descent reader is currently after: a value, the
body or tail of an array, the body or tail of an object, or one
`"key": value` member. -/
inductive PTask where
  | val : PTask
  | arrBody : PTask
  | arrTail : PTask
  | objBody : PTask
  | objTail : PTask
  | pair : PTask

/-- Intermediate parse results. -/
inductive PRes where
  | v : Json → PRes
  | vs : List Json → PRes
  | kv : String × Json → PRes
  | kvs : List (String × Json) → PRes

/-- Recursive-descent `json.loads` worker on a character list.  The fuel
decreases structurally on every recursive call so that the definition
computes by reduction; every call consumes input, so fuel linear in the
input length suffices. -/
def parseF : Nat → PTask → List Char → Option (PRes × List Char)
  | 0, _, _ => none
  | fuel + 1, .val, cs =>
      match skipWs cs with
      | '"' :: rest => do
          let (chars, rest') ← parseStrChars (rest.length + 1) rest
          pure (.v (.str (String.mk chars)), rest')
      | '\x7b' :: rest => parseF fuel .objBody rest
      | '[' :: rest => parseF fuel .arrBody rest
      | 't' :: 'r' :: 'u' :: 'e' :: rest => some (.v (.boolean true), rest)
      | 'f' :: 'a' :: 'l' :: 's' :: 'e' :: rest => some (.v (.boolean false), rest)
      | '-' :: c :: rest =>
          if c.isDigit then
            let (n, rest') := parseDigits (c :: rest) 0
            some (.v (.intVal (-(n : Int))), rest')
          else none
      | c :: rest =>
          if c.isDigit then
            let (n, rest') := parseDigits (c :: rest) 0
            some (.v (.intVal (n : Int)), rest')
          else none
      | [] => none
  | fuel + 1, .arrBody, cs =>
      match skipWs cs with
      | ']' :: rest => some (.v (.arr []), rest)
      | cs' => do
          let (r, rest) ← parseF fuel .val cs'
          match r with
          | .v v => do
              let (r', rest') ← parseF fuel .arrTail rest
              match r' with
              | .vs tl => pure (.v (.arr (v :: tl)), rest')
              | _ => none
          | _ => none
  | fuel + 1, .arrTail, cs =>
      match skipWs cs with
      | ']' :: rest => some (.vs [], rest)
      | ',' :: rest => do
          let (r, rest') ← parseF fuel .val rest
          match r with
          | .v v => do
              let (r', rest'') ← parseF fuel .arrTail rest'
              match r' with
              | .vs tl => pure (.vs (v :: tl), rest'')
              | _ => none
          | _ => none
      | _ => none
  | fuel + 1, .objBody, cs =>
      match skipWs cs with
      | '\x7d' :: rest => some (.v (.obj []), rest)
      | cs' => do
          let (r, rest) ← parseF fuel .pair cs'
          match r with
          | .kv p => do
              let (r', rest') ← parseF fuel .objTail rest
              match r' with
              | .kvs tl => pure (.v (.obj (p :: tl)), rest')
              | _ => none
          | _ => none
  | fuel + 1, .objTail, cs =>
      match skipWs cs with
      | '\x7d' :: rest => some (.kvs [], rest)
      | ',' :: rest => do
          let (r, rest') ← parseF fuel .pair rest
          match r with
          | .kv p => do
              let (r', rest'') ← parseF fuel .objTail rest'
              match r' with
              | .kvs tl => pure (.kvs (p :: tl), rest'')
              | _ => none
          | _ => none
      | _ => none
  | fuel + 1, .pair, cs =>
      match skipWs cs with
      | '"' :: rest => do
          let (chars, rest') ← parseStrChars (rest.length + 1) rest
          match skipWs rest' with
          | ':' :: rest'' => do
              let (r, rest''') ← parseF fuel .val rest''
              match r with
              | .v v => pure (.kv (String.mk chars, v), rest''')
              | _ => none
          | _ => none
      | _ => none

/-- `json.loads`: parse a complete document, requiring only whitespace to
remain.  Fuel `2 * length + 2` covers the worst case of two recursive
descents per consumed character. -/
def json_loads (s : String) : Option Json :=
  match parseF (2 * s.length + 2) .val s.data with
  | some (.v v, rest) => if skipWs rest = [] then some v else none
  | _ => none

/-- Keys of a JSON object, in order. -/
def objKeys : Json → List String
  | .obj kvs => kvs.map Prod.fst
  | _ => []

/-- Member access on a JSON object. -/
def jsonGet (j : Json) (k : String) : Option Json :=
  match j with
  | .obj kvs => kvs.lookup k
  | _ => none

/-- The full body of `demo_browser_workflow`, parameterised by the ambient
world (which the source never consults: no `os.environ`, no network request,
no file access) and by the `time.sleep` argument, which the source fixes to
`0.5`. -/
def demo_browser_workflow (w : World) (sleepDur : Rat) :
    Option (List Event × List MockRec) := do
  let intro : List Event :=
    [.out "🔄 Browser Automation Workflow Demo",
     .out (String.mk (List.replicate 40 '='))]
  let (loopEvs, results) ← runSteps sleepDur workflow_steps []
  let summary ← summaryEvents results
  let benefits : List Event :=
    [.out "\n🎯 Workflow Benefits:",
     .out "   • Automated end-to-end processing",
     .out "   • Consistent data extraction",
     .out "   • Integrated KG updates",
     .out "   • Error handling and retries",
     .out "   • Performance monitoring"]
  let jsonPart : List Event :=
    [.out "\n📋 Workflow Definition (JSON):",
     .out (json_dumps workflow_def)]
  pure (intro ++ loopEvs ++ summary ++ benefits ++ jsonPart, results)

/-- An event the process may perform without leaving console output or
timing behind: never emitted by the script. -/
def externalEffect : Event → Bool
  | .netFetch _ => true
  | .fileWrite _ _ => true
  | .envRead _ => true
  | _ => false

/-- An event that is console output or a sleep. -/
def consoleOrSleep : Event → Bool
  | .out _ => true
  | .sleep _ => true
  | _ => false

/-- C1: the summary block prints exactly the four lines `Total steps: 3`,
`URLs processed: 2`, `Total entities extracted: 16`, `Total KG triples
added: 24`, and the totals are the sums over the two appended mock result
records, each contributing 8 entities and 12 triples. -/
theorem c1_summary_totals (w : World) (d : Rat) :
    ∃ t rs, demo_browser_workflow w d = some (t, rs) ∧
      (printedLines t).filter
          (fun s => lineStarts s "   Total" || lineStarts s "   URLs") =
        ["   Total steps: 3", "   URLs processed: 2",
         "   Total entities extracted: 16", "   Total KG triples added: 24"] ∧
      rs.length = 2 ∧
      sumField "entities_found" rs = some 16 ∧
      sumField "kg_triples_added" rs = some 24 ∧
      ∀ r ∈ rs, r.lookup "entities_found" = some (.intVal 8) ∧
        r.lookup "kg_triples_added" = some (.intVal 12) := by
  refine ⟨_, _, rfl, rfl, rfl, rfl, rfl, ?_⟩
  intro r hr
  have hr2 : r ∈ [mock_result "https://example.com",
                  mock_result "https://httpbin.org/html"] := hr
  cases hr2 with
  | head => exact ⟨rfl, rfl⟩
  | tail _ hr3 =>
    cases hr3 with
    | head => exact ⟨rfl, rfl⟩
    | tail _ hr4 => cases hr4

/-- C1 witness: the concrete instance at the empty world and sleep 0. -/
theorem c1_summary_totals_witness :
    ∃ t rs, demo_browser_workflow emptyWorld 0 = some (t, rs) ∧
      (printedLines t).filter
          (fun s => lineStarts s "   Total" || lineStarts s "   URLs") =
        ["   Total steps: 3", "   URLs processed: 2",
         "   Total entities extracted: 16", "   Total KG triples added: 24"] ∧
      rs.length = 2 ∧
      sumField "entities_found" rs = some 16 ∧
      sumField "kg_triples_added" rs = some 24 ∧
      ∀ r ∈ rs, r.lookup "entities_found" = some (.intVal 8) ∧
        r.lookup "kg_triples_added" = some (.intVal 12) :=
  c1_summary_totals emptyWorld 0

/-- C2: the loop runs exactly 3 iterations over the fixed step list, in
list order, printing one step-header line per iteration. -/
theorem c2_three_steps_in_order (w : World) (d : Rat) :
    workflow_steps.length = 3 ∧
    workflow_steps.map (fun s => s.lookup "name") =
      [some "Browse Company Website", some "Browse News Article",
       some "KG Integration"] ∧
    (demo_browser_workflow w d).map
        (fun p => (printedLines p.1).filter (fun s => lineStarts s "\n🎯 Step: ")) =
      some ["\n🎯 Step: Browse Company Website", "\n🎯 Step: Browse News Article",
            "\n🎯 Step: KG Integration"] :=
  ⟨rfl, rfl, rfl⟩

/-- C2 witness: the concrete instance at the empty world and sleep 0. -/
theorem c2_three_steps_in_order_witness :
    workflow_steps.length = 3 ∧
    workflow_steps.map (fun s => s.lookup "name") =
      [some "Browse Company Website", some "Browse News Article",
       some "KG Integration"] ∧
    (demo_browser_workflow emptyWorld 0).map
        (fun p => (printedLines p.1).filter (fun s => lineStarts s "\n🎯 Step: ")) =
      some ["\n🎯 Step: Browse Company Website", "\n🎯 Step: Browse News Article",
            "\n🎯 Step: KG Integration"] :=
  c2_three_steps_in_order emptyWorld 0

set_option maxRecDepth 100000 in
/-- C3: the JSON document printed last, parsed back, equals the
`workflow_def` literal: an object with exactly the keys `name`, `steps`
(4 entries) and `output` (3 keys). -/
theorem c3_json_roundtrip :
    json_loads (json_dumps workflow_def) = some workflow_def ∧
    objKeys workflow_def = ["name", "steps", "output"] ∧
    (∃ xs, jsonGet workflow_def "steps" = some (.arr xs) ∧ xs.length = 4) ∧
    (∃ kvs, jsonGet workflow_def "output" = some (.obj kvs) ∧ kvs.length = 3) ∧
    ∀ w d, (demo_browser_workflow w d).map (fun p => (printedLines p.1).getLast?) =
      some (some (json_dumps workflow_def)) :=
  ⟨rfl, rfl, ⟨_, rfl, rfl⟩, ⟨_, rfl, rfl⟩, fun _ _ => rfl⟩

/-- C4: the run terminates with no uncaught exception (in particular every
dictionary access succeeds), and each of the 3 steps is processed exactly
once -- no retries happen. -/
theorem c4_no_exception_no_retry (w : World) (d : Rat) :
    (demo_browser_workflow w d).isSome = true ∧
    (demo_browser_workflow w d).map
        (fun p => (printedLines p.1).countP (fun s => lineStarts s "\n🎯 Step: ")) =
      some workflow_steps.length :=
  ⟨rfl, rfl⟩

/-- C4 witness: the concrete instance at the empty world and sleep 0. -/
theorem c4_no_exception_no_retry_witness :
    (demo_browser_workflow emptyWorld 0).isSome = true ∧
    (demo_browser_workflow emptyWorld 0).map
        (fun p => (printedLines p.1).countP (fun s => lineStarts s "\n🎯 Step: ")) =
      some workflow_steps.length :=
  c4_no_exception_no_retry emptyWorld 0

/-- Helper: a trace on which `consoleOrSleep` holds everywhere consists of
console outputs and sleeps only. -/
theorem all_consoleOrSleep_cases (t : List Event) (h : t.all consoleOrSleep = true) :
    ∀ e ∈ t, (∃ s, e = Event.out s) ∨ ∃ q, e = Event.sleep q := by
  intro e he
  have hb := List.all_eq_true.mp h e he
  cases e with
  | out s => exact Or.inl ⟨s, rfl⟩
  | sleep q => exact Or.inr ⟨q, rfl⟩
  | netFetch u => simp [consoleOrSleep] at hb
  | fileWrite p c => simp [consoleOrSleep] at hb
  | envRead n => simp [consoleOrSleep] at hb

/-- C5: the only externally observable effects are console output and
sleeping; the trace holds no network fetch, file write or environment
read, whatever the ambient world is. -/
theorem c5_frame_console_and_sleep_only (w : World) (d : Rat) :
    ∃ t rs, demo_browser_workflow w d = some (t, rs) ∧
      t.all consoleOrSleep = true ∧
      t.countP externalEffect = 0 ∧
      ∀ e ∈ t, (∃ s, e = Event.out s) ∨ ∃ q, e = Event.sleep q :=
  ⟨_, _, rfl, rfl, rfl, all_consoleOrSleep_cases _ rfl⟩

/-- C5 witness: the concrete instance at the empty world and sleep 0. -/
theorem c5_frame_console_and_sleep_only_witness :
    ∃ t rs, demo_browser_workflow emptyWorld 0 = some (t, rs) ∧
      t.all consoleOrSleep = true ∧
      t.countP externalEffect = 0 ∧
      ∀ e ∈ t, (∃ s, e = Event.out s) ∨ ∃ q, e = Event.sleep q :=
  c5_frame_console_and_sleep_only emptyWorld 0

/-- C6: every appended record has exactly the six keys in order, and the
five non-URL values are the hard-coded literals `True`, `2.5`, `15432`,
`8` and `12`. -/
theorem c6_record_fields_literal (w : World) (d : Rat) :
    ∃ t rs, demo_browser_workflow w d = some (t, rs) ∧
      ∀ r ∈ rs,
        r.map Prod.fst = ["url", "success", "extraction_time",
                          "content_length", "entities_found", "kg_triples_added"] ∧
        r.lookup "success" = some (.boolean true) ∧
        r.lookup "extraction_time" = some (.floatVal (mkRat 5 2)) ∧
        r.lookup "content_length" = some (.intVal 15432) ∧
        r.lookup "entities_found" = some (.intVal 8) ∧
        r.lookup "kg_triples_added" = some (.intVal 12) := by
  refine ⟨_, _, rfl, ?_⟩
  intro r hr
  have hr2 : r ∈ [mock_result "https://example.com",
                  mock_result "https://httpbin.org/html"] := hr
  cases hr2 with
  | head => exact ⟨rfl, rfl, rfl, rfl, rfl, rfl⟩
  | tail _ hr3 =>
    cases hr3 with
    | head => exact ⟨rfl, rfl, rfl, rfl, rfl, rfl⟩
    | tail _ hr4 => cases hr4

/-- C6 witness: the concrete instance at the empty world and sleep 0. -/
theorem c6_record_fields_literal_witness :
    ∃ t rs, demo_browser_workflow emptyWorld 0 = some (t, rs) ∧
      ∀ r ∈ rs,
        r.map Prod.fst = ["url", "success", "extraction_time",
                          "content_length", "entities_found", "kg_triples_added"] ∧
        r.lookup "success" = some (.boolean true) ∧
        r.lookup "extraction_time" = some (.floatVal (mkRat 5 2)) ∧
        r.lookup "content_length" = some (.intVal 15432) ∧
        r.lookup "entities_found" = some (.intVal 8) ∧
        r.lookup "kg_triples_added" = some (.intVal 12) :=
  c6_record_fields_literal emptyWorld 0

/-- C7: the sleep duration (0.5 in the source) has no bearing on the
output: the printed lines and the final results of the program as written
equal those of a variant with any other duration, zero included. -/
theorem c7_sleep_duration_irrelevant (w : World) (d : Rat) :
    (demo_browser_workflow w (mkRat 1 2)).map (fun p => printedLines p.1) =
      (demo_browser_workflow w d).map (fun p => printedLines p.1) ∧
    (demo_browser_workflow w (mkRat 1 2)).map Prod.snd =
      (demo_browser_workflow w d).map Prod.snd :=
  ⟨rfl, rfl⟩

/-- C7 witness: the concrete instance at the empty world and sleep 0. -/
theorem c7_sleep_duration_irrelevant_witness :
    (demo_browser_workflow emptyWorld (mkRat 1 2)).map (fun p => printedLines p.1) =
      (demo_browser_workflow emptyWorld 0).map (fun p => printedLines p.1) ∧
    (demo_browser_workflow emptyWorld (mkRat 1 2)).map Prod.snd =
      (demo_browser_workflow emptyWorld 0).map Prod.snd :=
  c7_sleep_duration_irrelevant emptyWorld 0

/-- C8: the run is deterministic: whatever two ambient worlds two runs
happen in (the script reads none of it), the entire outcome -- printed
lines and final results included -- is identical. -/
theorem c8_deterministic (w₁ w₂ : World) (d : Rat) :
    demo_browser_workflow w₁ d = demo_browser_workflow w₂ d ∧
    (demo_browser_workflow w₁ d).map (fun p => printedLines p.1) =
      (demo_browser_workflow w₂ d).map (fun p => printedLines p.1) ∧
    (demo_browser_workflow w₁ d).map Prod.snd =
      (demo_browser_workflow w₂ d).map Prod.snd :=
  ⟨rfl, rfl, rfl⟩

/-- C10: every record in the final results has a `url` key, so the
`URLs processed` filter keeps every record and its count equals the length
of the results list. -/
theorem c10_url_filter_total (w : World) (d : Rat) :
    ∃ t rs, demo_browser_workflow w d = some (t, rs) ∧
      (∀ r ∈ rs, (r.lookup "url").isSome = true) ∧
      rs.filter (fun r => (r.lookup "url").isSome) = rs ∧
      (rs.filter (fun r => (r.lookup "url").isSome)).length = rs.length := by
  refine ⟨_, _, rfl, ?_, rfl, rfl⟩
  intro r hr
  have hr2 : r ∈ [mock_result "https://example.com",
                  mock_result "https://httpbin.org/html"] := hr
  cases hr2 with
  | head => rfl
  | tail _ hr3 =>
    cases hr3 with
    | head => rfl
    | tail _ hr4 => cases hr4

/-- C10 witness: the concrete instance at the empty world and sleep 0. -/
theorem c10_url_filter_total_witness :
    ∃ t rs, demo_browser_workflow emptyWorld 0 = some (t, rs) ∧
      (∀ r ∈ rs, (r.lookup "url").isSome = true) ∧
      rs.filter (fun r => (r.lookup "url").isSome) = rs ∧
      (rs.filter (fun r => (r.lookup "url").isSome)).length = rs.length :=
  c10_url_filter_total emptyWorld 0

/-- C9: an iteration over a step without a `url` key never appends to
`results` (proved for arbitrary step dicts and arbitrary accumulated
results), and the final results list holds exactly one record per step
that has a `url` key, in step order. -/
theorem c9_kg_step_appends_nothing :
    (∀ (d : Rat) (res : List MockRec) (step : List (String × String))
        (t : List Event) (rs : List MockRec),
        step.lookup "url" = none → processStep d res step = some (t, rs) → rs = res) ∧
    ∀ w d, (demo_browser_workflow w d).map Prod.snd =
        some (workflow_steps.filterMap fun s => (s.lookup "url").map mock_result) ∧
      (demo_browser_workflow w d).map (fun p => p.2.length) = some 2 := by
  constructor
  · intro d res step t rs hurl hps
    unfold processStep at hps
    rw [hurl] at hps
    cases hname : step.lookup "name" with
    | none => rw [hname] at hps; simp at hps
    | some name =>
      rw [hname] at hps
      simp only [Option.bind_eq_bind', Option.some_bind'] at hps
      by_cases hkg : name = "KG Integration"
      · rw [if_pos hkg] at hps
        cases haction : step.lookup "action" with
        | none => rw [haction] at hps; simp at hps
        | some action =>
          rw [haction] at hps
          simp only [Option.bind_eq_bind', Option.some_bind', Option.some.injEq,
            Prod.mk.injEq, pure] at hps
          exact hps.2.symm
      · rw [if_neg hkg] at hps
        simp only [Option.some.injEq, Prod.mk.injEq, pure] at hps
        exact hps.2.symm
  · exact fun w d => ⟨rfl, rfl⟩

/-- C9 witness: the general lemma applied to the concrete `KG Integration`
step of the script (which has no `url` key), and the concrete run. -/
theorem c9_kg_step_appends_nothing_witness :
    (([] : List MockRec) = []) ∧
    ((demo_browser_workflow emptyWorld 0).map Prod.snd =
        some (workflow_steps.filterMap fun s => (s.lookup "url").map mock_result) ∧
      (demo_browser_workflow emptyWorld 0).map (fun p => p.2.length) = some 2) :=
  ⟨c9_kg_step_appends_nothing.1 0 []
      [("name", "KG Integration"),
       ("action", "Store extracted information in knowledge graph")] _ [] rfl rfl,
   c9_kg_step_appends_nothing.2 emptyWorld 0⟩
